import Mathlib

/-!
The 9volt manager: the watch-to-dispatch reconciliation loop.

A shallow embedding of `manager/manager.go`.  Go strings are modelled by `String`,
pointers that may be nil by `Option`, and the side effects of the manager (logger,
error log, overwatch channel, goroutines handed to the monitor, cancel functions)
by explicit fields of a `World` that is threaded through every operation.
The results of successive `watcher.Next` calls are the input of the loop.
-/

set_option autoImplicit false

/-! ## Go standard library pieces used by the manager -/

namespace path

/-- Index of the last slash seen while scanning `cs` from position `i`, starting from
the candidate `acc` (Go: the index found by `LastIndexByte(path, '/')`, or `none` for -1). -/
def lastSlashFrom : List Char → Nat → Option Nat → Option Nat
  | [], _, acc => acc
  | c :: cs, i, acc => lastSlashFrom cs (i + 1) (if c = '/' then some i else acc)

/-- Index of the last slash of `cs`, `none` when there is none. -/
def lastSlash (cs : List Char) : Option Nat :=
  lastSlashFrom cs 0 none

/-- The loop `for len(path) > 0 && path[len(path)-1] == '/' { path = path[0 : len(path)-1] }`. -/
def stripTrailingSlashes (cs : List Char) : List Char :=
  (cs.reverse.dropWhile (fun c => c == '/')).reverse

/-- Go `path.Base`: the last element of the path; trailing slashes are removed first,
the empty path gives ".", a path made of slashes only gives "/". -/
def Base (p : String) : String :=
  if p = "" then "."
  else
    let p1 := stripTrailingSlashes p.data
    let p2 :=
      match lastSlash p1 with
      | some i => p1.drop (i + 1)
      | none => p1
    if p2 = [] then "/" else String.mk p2

end path

/-- A Go `error` value as far as the manager can observe it: either the sentinel
`context.Canceled`, or any other error value, known by the text its `Error()` returns. -/
inductive GoError where
  | Canceled
  | other (msg : String)
  deriving DecidableEq

namespace GoError

/-- The `Error()` method; `context.Canceled.Error()` is "context canceled". -/
def Error : GoError → String
  | Canceled => "context canceled"
  | other msg => msg

end GoError

/-! ## Collaborating packages, at their interface -/

namespace client

/-- The etcd client node of a response: the changed key and its raw value. -/
structure Node where
  Key : String
  Value : String
  deriving DecidableEq

/-- The etcd client response (a watch event); `Node` is a pointer and may be nil. -/
structure Response where
  Action : String
  Node : Option Node
  deriving DecidableEq

end client

namespace overwatch

/-- Modelled from the spec: the overwatch package is not among the sources; the kind of
a fault report is an enumeration, of which the manager uses `ETCD_WATCHER_ERROR` (the
watch-stream-error kind); `ETCD_GENERIC_ERROR` stands for the kinds it does not use. -/
inductive ErrorType where
  | ETCD_GENERIC_ERROR
  | ETCD_WATCHER_ERROR
  deriving DecidableEq

/-- Modelled from the spec: the fault report `overwatch.Message` with its three fields
error, source and kind, as the composite literal in `run` fills them. -/
structure Message where
  Error : GoError
  Source : String
  ErrorType : ErrorType
  deriving DecidableEq

end overwatch

namespace monitor

/-- Modelled from the spec: the command of a lifecycle directive, `monitor.START` or
`monitor.STOP`; the monitor package is not among the sources. -/
inductive Command where
  | START
  | STOP
  deriving DecidableEq

/-- One call `Monitor.Handle(command, targetID, payload)` handed to a new goroutine. -/
structure HandleCall where
  command : Command
  targetID : String
  payload : String
  deriving DecidableEq

end monitor

/-- Level of a logrus entry. -/
inductive LogLevel where
  | Debug
  | Info
  | Warning
  deriving DecidableEq

/-- One entry written through `m.Log`: level, message and structured fields. -/
structure LogEntry where
  level : LogLevel
  msg : String
  fields : List (String × String)
  deriving DecidableEq

/-- Modelled from the spec: one record made by `EQClient.AddWithErrorLog(message, logger,
fields)`, the error-log collaborator (fire-and-forget, never fails the caller). -/
structure ErrorLogEntry where
  msg : String
  fields : List (String × String)
  deriving DecidableEq

/-- State of the Go channel behind `OverwatchChan`, as a sender meets it: buffer
capacity, buffered messages, number of receivers parked on the channel, the messages
handed directly to a parked receiver, and whether the channel was closed. -/
structure Chan where
  cap : Nat
  buf : List overwatch.Message
  recvq : Nat
  handed : List overwatch.Message
  closed : Bool
  deriving DecidableEq

/-- What a send statement `ch <- v` does in a given channel state. -/
inductive SendResult where
  | sent (c : Chan)
  | blocks
  | panics
  deriving DecidableEq

namespace Chan

/-- Go channel send: on a closed channel it panics; a parked receiver takes the value
directly; otherwise the value goes to the buffer when there is room; otherwise the
sender parks, until some other goroutine receives. -/
def send (c : Chan) (v : overwatch.Message) : SendResult :=
  if c.closed then .panics
  else if 0 < c.recvq then .sent { c with recvq := c.recvq - 1, handed := c.handed ++ [v] }
  else if c.buf.length < c.cap then .sent { c with buf := c.buf ++ [v] }
  else .blocks

/-- Number of sends the channel takes without any further receive. -/
def room (c : Chan) : Nat :=
  c.recvq + (c.cap - c.buf.length)

/-- Number of messages the channel has taken from senders so far. -/
def accepted (c : Chan) : Nat :=
  c.handed.length + c.buf.length

end Chan

/-- The cancel function returned by `context.WithCancel`, known by the context it cancels. -/
structure CancelFunc where
  ctx : Nat
  deriving DecidableEq

/-- Everything the manager acts on outside its own fields. -/
structure World where
  /-- Entries written through `m.Log`. -/
  logs : List LogEntry
  /-- Records made through `m.Config.EQClient.AddWithErrorLog`. -/
  errorLog : List ErrorLogEntry
  /-- The channel behind `m.OverwatchChan`. -/
  overwatch : Chan
  /-- The goroutines started with `go m.Monitor.Handle(...)`, in order. -/
  handled : List monitor.HandleCall
  /-- Number of `m.Monitor.StopAll()` calls. -/
  stopAlls : Nat
  /-- The contexts whose cancel function was called. -/
  canceled : List Nat
  /-- The watchers opened with `DalClient.NewWatcher(dir, recursive)`. -/
  watchers : List (String × Bool)
  deriving DecidableEq

namespace World

/-- Write one entry through the logger. -/
def log (w : World) (level : LogLevel) (msg : String) (fields : List (String × String)) : World :=
  { w with logs := w.logs ++ [⟨level, msg, fields⟩] }

/-- The call `EQClient.AddWithErrorLog(msg, m.Log, fields)`. -/
def addWithErrorLog (w : World) (msg : String) (fields : List (String × String)) : World :=
  { w with errorLog := w.errorLog ++ [⟨msg, fields⟩] }

end World

/-! ## The manager -/

namespace manager

/-- Modelled from the spec: the config package is not among the sources; of
`config.Config` the manager reads the member id, and reaches through it the watcher and
the error log, whose effects are fields of the `World`. -/
structure Config where
  MemberID : String
  deriving DecidableEq

/-- The `Manager` struct: `MemberID`, and of the embedded `base.Component` the
`Identifier`, the context `Ctx` and the cancel function `Cancel` (nil until `Start`). -/
structure Manager where
  MemberID : String
  Identifier : String
  Ctx : Option Nat
  Cancel : Option CancelFunc
  deriving DecidableEq

/-- The constructor `New`: the identifier is "manager", no context is allocated. -/
def New (cfg : Config) : Manager :=
  { MemberID := cfg.MemberID, Identifier := "manager", Ctx := none, Cancel := none }

/-- The method `Stop`: warn when `Cancel` is nil, call it otherwise; then
`m.Monitor.StopAll()`; return nil. -/
def Stop (m : Manager) (w : World) : World × Option GoError :=
  let w1 :=
    match m.Cancel with
    | none => w.log .Warning "Looks like .Cancel is nil; is this expected?" []
    | some cancel => { w with canceled := w.canceled ++ [cancel.ctx] }
  let w2 := { w1 with stopAlls := w1.stopAlls + 1 }
  (w2, none)

/-- Result of evaluating an expression that may dereference a nil pointer. -/
inductive Eval (α : Type) where
  | ok (a : α)
  | nilDeref
  deriving DecidableEq

/-- The method `ignorableWatcherEvent`: true for a nil response (after a debug entry),
true when `path.Base(resp.Node.Key)` is "config", false otherwise; reading
`resp.Node.Key` dereferences `resp.Node`. -/
def ignorableWatcherEvent (_m : Manager) (w : World) (resp : Option client.Response) :
    World × Eval Bool :=
  match resp with
  | none => (w.log .Debug "Received a nil etcd response - bug?" [], .ok true)
  | some r =>
    match r.Node with
    | none => (w, .nilDeref)
    | some node =>
      if path.Base node.Key = "config" then (w, .ok true)
      else (w, .ok false)

/-- What `watcher.Next(ctx)` returned: a response pointer and an error. -/
structure WatchResult where
  resp : Option client.Response
  err : Option GoError
  deriving DecidableEq

/-- How one pass through the body of the `for` loop of `run` ends. -/
inductive Flow where
  /-- The body ended (by `continue` or at its end): `watcher.Next` is called again. -/
  | continues
  /-- The body executed `break`. -/
  | breaks
  /-- The goroutine panicked (nil pointer dereference, send on a closed channel). -/
  | panics
  /-- The goroutine is parked in the send on the overwatch channel. -/
  | blocksOnSend
  deriving DecidableEq

/-- The fault report that `run` builds for the watcher error `err`. -/
def watcherFault (m : Manager) (err : GoError) : overwatch.Message :=
  { Error := .other ("Unexpected watcher error: " ++ err.Error),
    Source := m.Identifier ++ ".run",
    ErrorType := .ETCD_WATCHER_ERROR }

/-- The `switch resp.Action` of `run`, for a response with its node. -/
def dispatch (_m : Manager) (w : World) (action : String) (node : client.Node) : World :=
  if action = "set" then
    { w with handled := w.handled ++ [⟨.START, path.Base node.Key, node.Value⟩] }
  else if action = "delete" then
    { w with handled := w.handled ++ [⟨.STOP, path.Base node.Key, node.Value⟩] }
  else
    w.addWithErrorLog "Received an unrecognized action -> skipping" [("action", action)]

/-- One pass through the body of the `for` loop of `run`, given what `watcher.Next`
returned. -/
def runIteration (m : Manager) (w : World) (res : WatchResult) : World × Flow :=
  match res.err with
  | some err =>
    if err.Error = "context canceled" then
      (w.log .Debug "Received a notice to shutdown" [], .breaks)
    else
      let w1 := w.addWithErrorLog "Unexpected watcher error" [("err", err.Error)]
      match w1.overwatch.send (watcherFault m err) with
      | .sent c => ({ w1 with overwatch := c }, .continues)
      | .blocks => (w1, .blocksOnSend)
      | .panics => (w1, .panics)
  | none =>
    match ignorableWatcherEvent m w res.resp with
    | (w1, .nilDeref) => (w1, .panics)
    | (w1, .ok true) =>
      -- the fields of the debug entry read `resp.Action` and `resp.Node.Key`
      match res.resp with
      | none => (w1, .panics)
      | some r =>
        match r.Node with
        | none => (w1, .panics)
        | some node =>
          (w1.log .Debug "Received an ignorable watcher event"
            [("action", r.Action), ("key", node.Key)], .continues)
    | (w1, .ok false) =>
      match res.resp with
      | none => (w1, .panics)
      | some r =>
        match r.Node with
        | none => (w1, .panics)
        | some node =>
          let w2 := w1.log .Debug "Received watcher event"
            [("action", r.Action), ("key", node.Key), ("value", node.Value)]
          (dispatch m w2 r.Action node, .continues)

/-- How a call of `run` stands once the given watch results are used up. -/
inductive RunResult where
  /-- The method returned this error value (nil is `none`). -/
  | returned (err : Option GoError)
  /-- The goroutine panicked. -/
  | panicked
  /-- The goroutine is parked in the send on the overwatch channel. -/
  | blockedOnSend
  /-- The goroutine waits in `watcher.Next` for a result beyond the given ones. -/
  | waiting
  deriving DecidableEq

/-- The `for` loop of `run` and the code after it, over the successive results of
`watcher.Next`. -/
def runLoop (m : Manager) (w : World) : List WatchResult → World × RunResult
  | [] => (w, .waiting)
  | res :: rest =>
    match runIteration m w res with
    | (w1, .continues) => runLoop m w1 rest
    | (w1, .breaks) => (w1.log .Debug "Exiting..." [], .returned none)
    | (w1, .panics) => (w1, .panicked)
    | (w1, .blocksOnSend) => (w1, .blockedOnSend)

/-- The method `run`: open the recursive watcher on the member's config directory and
loop over its results. -/
def run (m : Manager) (w : World) (stream : List WatchResult) : World × RunResult :=
  let memberConfigDir := "cluster/members/" ++ m.MemberID ++ "/config"
  let w1 := { w with watchers := w.watchers ++ [(memberConfigDir, true)] }
  runLoop m w1 stream

end manager

/-! ## Concrete inputs -/

/-- An open channel of capacity `cap` with nothing buffered and `recvq` parked receivers. -/
def Chan.fresh (cap recvq : Nat) : Chan :=
  { cap := cap, buf := [], recvq := recvq, handed := [], closed := false }

/-- A world in which nothing has happened yet, around the given overwatch channel. -/
def World.fresh (c : Chan) : World :=
  { logs := [], errorLog := [], overwatch := c, handled := [], stopAlls := 0,
    canceled := [], watchers := [] }

/-- A watch result carrying a response with action, key and value, and a nil error. -/
def manager.event (action key value : String) : manager.WatchResult :=
  { resp := some { Action := action, Node := some { Key := key, Value := value } },
    err := none }

/-- A watch result carrying a nil response and the given error. -/
def manager.failure (err : GoError) : manager.WatchResult :=
  { resp := none, err := some err }

namespace manager

/-- A watch result whose error is non-nil and does not read "context canceled". -/
def WatchResult.isFault (r : WatchResult) : Bool :=
  match r.err with
  | some e => e.Error != "context canceled"
  | none => false

/-- A watch result with a nil error and a response that carries a node. -/
def WatchResult.isEvent (r : WatchResult) : Bool :=
  match r.err, r.resp with
  | none, some ⟨_, some _⟩ => true
  | _, _ => false

/-- Number of fault results in a stream of watch results. -/
def faultCount (stream : List WatchResult) : Nat :=
  (stream.filter WatchResult.isFault).length

/-- The directive that the specification expects for one event (action, key, value):
none for an ignorable event, START for "set", STOP for "delete", none otherwise. -/
def expectedDirective (e : String × String × String) : Option monitor.HandleCall :=
  if path.Base e.2.1 = "config" then none
  else if e.1 = "set" then some ⟨.START, path.Base e.2.1, e.2.2⟩
  else if e.1 = "delete" then some ⟨.STOP, path.Base e.2.1, e.2.2⟩
  else none

/-- The directives that the specification expects for a stream of events, in order. -/
def expectedDirectives (evs : List (String × String × String)) : List monitor.HandleCall :=
  evs.filterMap expectedDirective

/-- The watch results of a stream of events (action, key, value). -/
def eventStream (evs : List (String × String × String)) : List WatchResult :=
  evs.map (fun e => event e.1 e.2.1 e.2.2)

end manager

open manager

/-! ## Helper lemmas -/

/-- A response that carries a node is ignorable exactly when the base of its key is
"config"; the world is left as it was. -/
theorem ignorable_of_node (m : Manager) (w : World) (action key value : String) :
    ignorableWatcherEvent m w (some ⟨action, some ⟨key, value⟩⟩) =
      (w, .ok (decide (path.Base key = "config"))) := by
  unfold ignorableWatcherEvent
  by_cases h : path.Base key = "config" <;> simp [h]

/-- The iteration on an event whose key has base "config". -/
theorem runIteration_config (m : Manager) (w : World) (action key value : String)
    (h : path.Base key = "config") :
    runIteration m w (event action key value) =
      (w.log .Debug "Received an ignorable watcher event" [("action", action), ("key", key)],
        .continues) := by
  simp [runIteration, event, ignorable_of_node, h]

/-- The iteration on an event whose key has another base than "config". -/
theorem runIteration_entry (m : Manager) (w : World) (action key value : String)
    (h : path.Base key ≠ "config") :
    runIteration m w (event action key value) =
      (dispatch m (w.log .Debug "Received watcher event"
        [("action", action), ("key", key), ("value", value)]) action ⟨key, value⟩,
        .continues) := by
  simp [runIteration, event, ignorable_of_node, h]

/-- An open channel with room takes a send: the result is open, has taken one more
message, has one place less, and the message is the last one handed over or buffered. -/
theorem Chan.send_of_room (c : Chan) (v : overwatch.Message)
    (hopen : c.closed = false) (hroom : 0 < c.room) :
    ∃ c1, c.send v = .sent c1 ∧ c1.closed = false ∧ c1.accepted = c.accepted + 1 ∧
      c1.room + 1 = c.room ∧
      ((c1.handed = c.handed ++ [v] ∧ c1.buf = c.buf) ∨
        (c1.handed = c.handed ∧ c1.buf = c.buf ++ [v])) := by
  unfold Chan.room at hroom
  by_cases hr : 0 < c.recvq
  · refine ⟨{ c with recvq := c.recvq - 1, handed := c.handed ++ [v] }, ?_, hopen, ?_, ?_, ?_⟩
    · simp [Chan.send, hopen, hr]
    · simp only [Chan.accepted, List.length_append, List.length_singleton]
      omega
    · simp only [Chan.room]
      omega
    · exact Or.inl ⟨rfl, rfl⟩
  · have hb : c.buf.length < c.cap := by omega
    refine ⟨{ c with buf := c.buf ++ [v] }, ?_, hopen, ?_, ?_, ?_⟩
    · simp [Chan.send, hopen, hr, hb]
    · simp only [Chan.accepted, List.length_append, List.length_singleton]
      omega
    · simp only [Chan.room, List.length_append, List.length_singleton]
      omega
    · exact Or.inr ⟨rfl, rfl⟩

/-- An open channel without room parks the sender. -/
theorem Chan.send_of_full (c : Chan) (v : overwatch.Message)
    (hopen : c.closed = false) (hroom : c.room = 0) : c.send v = .blocks := by
  unfold Chan.room at hroom
  have hr : ¬ 0 < c.recvq := by omega
  have hb : ¬ c.buf.length < c.cap := by omega
  simp [Chan.send, hopen, hr, hb]

/-- The iteration on an error whose text is not "context canceled": the error-log
entry, then the send of the fault report. -/
theorem runIteration_fault (m : Manager) (w : World) (resp : Option client.Response)
    (err : GoError) (h : err.Error ≠ "context canceled") :
    runIteration m w ⟨resp, some err⟩ =
      match w.overwatch.send (watcherFault m err) with
      | .sent c =>
        ({ w with
            errorLog := w.errorLog ++ [⟨"Unexpected watcher error", [("err", err.Error)]⟩],
            overwatch := c }, .continues)
      | .blocks =>
        ({ w with
            errorLog := w.errorLog ++ [⟨"Unexpected watcher error", [("err", err.Error)]⟩] },
          .blocksOnSend)
      | .panics =>
        ({ w with
            errorLog := w.errorLog ++ [⟨"Unexpected watcher error", [("err", err.Error)]⟩] },
          .panics) := by
  cases hs : w.overwatch.send (watcherFault m err) <;>
    simp [runIteration, h, hs, World.addWithErrorLog]

/-- The iteration on an event that carries a node goes on, leaves the overwatch channel
alone and starts the goroutine that the specification expects, if any. -/
theorem runIteration_event (m : Manager) (w : World) (action key value : String) :
    (runIteration m w (event action key value)).2 = .continues ∧
    (runIteration m w (event action key value)).1.overwatch = w.overwatch ∧
    (runIteration m w (event action key value)).1.handled =
      w.handled ++ (expectedDirective (action, key, value)).toList := by
  by_cases h : path.Base key = "config"
  · rw [runIteration_config m w action key value h]
    simp [World.log, expectedDirective, h]
  · rw [runIteration_entry m w action key value h]
    by_cases hset : action = "set"
    · simp [dispatch, World.log, expectedDirective, h, hset]
    · by_cases hdel : action = "delete"
      · simp [dispatch, World.log, expectedDirective, h, hdel]
      · simp [dispatch, World.log, World.addWithErrorLog, expectedDirective, h, hset, hdel]

/-- The loop steps over an iteration that goes on. -/
theorem runLoop_cons_continues (m : Manager) (w w1 : World) (res : WatchResult)
    (rest : List WatchResult) (h : runIteration m w res = (w1, .continues)) :
    runLoop m w (res :: rest) = runLoop m w1 rest := by
  simp [runLoop, h]

/-- The loop over a stream of events: it reaches the results after them with exactly
the expected goroutines started and the overwatch channel as it was. -/
theorem runLoop_events (m : Manager) (evs : List (String × String × String)) :
    ∀ (w : World) (rest : List WatchResult),
      ∃ w1, runLoop m w (eventStream evs ++ rest) = runLoop m w1 rest ∧
        w1.handled = w.handled ++ expectedDirectives evs ∧
        w1.overwatch = w.overwatch := by
  induction evs with
  | nil =>
    intro w rest
    exact ⟨w, rfl, by simp [expectedDirectives], rfl⟩
  | cons e evs ih =>
    intro w rest
    obtain ⟨hc, ho, hh⟩ := runIteration_event m w e.1 e.2.1 e.2.2
    obtain ⟨w2, hrun, hh2, ho2⟩ := ih (runIteration m w (event e.1 e.2.1 e.2.2)).1 rest
    refine ⟨w2, ?_, ?_, ?_⟩
    · have hstep : runIteration m w (event e.1 e.2.1 e.2.2) =
          ((runIteration m w (event e.1 e.2.1 e.2.2)).1, .continues) := by
        rw [← hc]
      have := runLoop_cons_continues m w _ (event e.1 e.2.1 e.2.2)
        (eventStream evs ++ rest) hstep
      simpa [eventStream] using this.trans (by simpa [eventStream] using hrun)
    · rw [hh2, hh]
      cases hd : expectedDirective e <;>
        simp [expectedDirectives, List.filterMap_cons, hd]
    · rw [ho2, ho]

/-- The loop over a stream of faults and events, on an open overwatch channel with
room for the faults: it reaches the results after them, the channel has taken one
message per fault and is still open. -/
theorem runLoop_faults_events (m : Manager) (stream : List WatchResult) :
    ∀ (w : World) (rest : List WatchResult),
      (∀ r ∈ stream, r.isFault = true ∨ r.isEvent = true) →
      w.overwatch.closed = false →
      faultCount stream ≤ w.overwatch.room →
      ∃ w1, runLoop m w (stream ++ rest) = runLoop m w1 rest ∧
        w1.overwatch.closed = false ∧
        w1.overwatch.accepted = w.overwatch.accepted + faultCount stream ∧
        w1.overwatch.room + faultCount stream = w.overwatch.room := by
  induction stream with
  | nil =>
    intro w rest _ hopen _
    exact ⟨w, rfl, hopen, by simp [faultCount], by simp [faultCount]⟩
  | cons r stream ih =>
    intro w rest hall hopen hroom
    have hr := hall r (List.mem_cons_self _ _)
    have hall2 : ∀ x ∈ stream, x.isFault = true ∨ x.isEvent = true :=
      fun x hx => hall x (List.mem_cons_of_mem _ hx)
    obtain ⟨resp, err⟩ := r
    cases err with
    | some e =>
      have hf : (WatchResult.mk resp (some e)).isFault = true := by
        rcases hr with hr | hr
        · exact hr
        · simp [WatchResult.isEvent] at hr
      have hmsg : e.Error ≠ "context canceled" := by
        simpa [WatchResult.isFault] using hf
      have hcount : faultCount (⟨resp, some e⟩ :: stream) = faultCount stream + 1 := by
        simp [faultCount, List.filter_cons, hf]
      rw [hcount] at hroom
      obtain ⟨c1, hsend, hopen1, hacc1, hroom1, _⟩ :=
        Chan.send_of_room w.overwatch (watcherFault m e) hopen (by omega)
      have hstep := runIteration_fault m w resp e hmsg
      rw [hsend] at hstep
      obtain ⟨w2, hrun, hopen2, hacc2, hroom2⟩ :=
        ih _ rest hall2 (show (World.overwatch { w with
            errorLog := w.errorLog ++ [⟨"Unexpected watcher error", [("err", e.Error)]⟩],
            overwatch := c1 }).closed = false from hopen1)
          (show faultCount stream ≤ c1.room by omega)
      refine ⟨w2, ?_, hopen2, ?_, ?_⟩
      · rw [List.cons_append, runLoop_cons_continues m w _ _ _ hstep]
        exact hrun
      · rw [hacc2, hcount]
        show c1.accepted + faultCount stream = _
        omega
      · rw [hcount]
        have : w2.overwatch.room + faultCount stream = c1.room := hroom2
        omega
    | none =>
      have hev : (WatchResult.mk resp none).isEvent = true := by
        rcases hr with hr | hr
        · simp [WatchResult.isFault] at hr
        · exact hr
      have hf : (WatchResult.mk resp none).isFault = false := by
        simp [WatchResult.isFault]
      have hcount : faultCount (⟨resp, none⟩ :: stream) = faultCount stream := by
        simp [faultCount, List.filter_cons, hf]
      rw [hcount] at hroom
      match resp, hev with
      | some ⟨action, some ⟨key, value⟩⟩, _ =>
        obtain ⟨hc, ho, _⟩ := runIteration_event m w action key value
        have hstep : runIteration m w (event action key value) =
            ((runIteration m w (event action key value)).1, .continues) := by
          rw [← hc]
        obtain ⟨w2, hrun, hopen2, hacc2, hroom2⟩ :=
          ih (runIteration m w (event action key value)).1 rest hall2
            (by rw [ho]; exact hopen) (by rw [ho]; exact hroom)
        refine ⟨w2, ?_, hopen2, ?_, ?_⟩
        · rw [List.cons_append]
          exact (runLoop_cons_continues m w _ (event action key value) _ hstep).trans hrun
        · rw [hacc2, ho, hcount]
        · rw [hcount, hroom2, ho]

/-- The fault report of a manager whose identifier is "manager", as New sets it. -/
theorem watcherFault_of_New (m : Manager) (err : GoError) (hid : m.Identifier = "manager") :
    watcherFault m err =
      ⟨.other ("Unexpected watcher error: " ++ err.Error), "manager.run",
        .ETCD_WATCHER_ERROR⟩ := by
  unfold watcherFault
  rw [hid]
  rfl

/-- The loop on an error whose text is "context canceled": the two debug entries and
the return of nil, whatever follows. -/
theorem runLoop_canceled (m : Manager) (w : World) (resp : Option client.Response)
    (err : GoError) (rest : List WatchResult) (h : err.Error = "context canceled") :
    runLoop m w (⟨resp, some err⟩ :: rest) =
      ((w.log .Debug "Received a notice to shutdown" []).log .Debug "Exiting..." [],
        .returned none) := by
  simp [runLoop, runIteration, h]

/-! ## The claims -/

/-- C5: ignorableWatcherEvent returns true for a nil event; for a non-nil event whose
node carries a key it returns true exactly when path.Base of the key is "config" (and
false otherwise), whatever the action and the value; in particular two events with the
same key get the same answer. -/
theorem C5_ignorableWatcherEvent (m : Manager) (w : World) :
    (ignorableWatcherEvent m w none).2 = .ok true ∧
    (∀ action key value : String,
      (ignorableWatcherEvent m w (some ⟨action, some ⟨key, value⟩⟩)).2 =
        .ok (decide (path.Base key = "config"))) ∧
    (∀ action key value : String,
      (ignorableWatcherEvent m w (some ⟨action, some ⟨key, value⟩⟩)).2 = .ok true ↔
        path.Base key = "config") ∧
    (∀ key action1 value1 action2 value2 : String,
      (ignorableWatcherEvent m w (some ⟨action1, some ⟨key, value1⟩⟩)).2 =
        (ignorableWatcherEvent m w (some ⟨action2, some ⟨key, value2⟩⟩)).2) := by
  refine ⟨rfl, ?_, ?_, ?_⟩
  · intro action key value
    rw [ignorable_of_node]
  · intro action key value
    rw [ignorable_of_node]
    simp
  · intro key action1 value1 action2 value2
    rw [ignorable_of_node, ignorable_of_node]

/-- C1: for an event that is not ignorable (the base of its key is not "config"), the
iteration of run on a "set" starts exactly one goroutine, Monitor.Handle(START,
path.Base key, value), and on a "delete" exactly one, Monitor.Handle(STOP, path.Base
key, value); the value is passed on unchanged, nothing goes to the error log or to the
overwatch channel, and the loop goes on. -/
theorem C1_set_delete_dispatch (m : Manager) (w : World) (key value : String)
    (h : path.Base key ≠ "config") :
    ((runIteration m w (event "set" key value)).1.handled =
        w.handled ++ [⟨.START, path.Base key, value⟩] ∧
      (runIteration m w (event "set" key value)).1.errorLog = w.errorLog ∧
      (runIteration m w (event "set" key value)).1.overwatch = w.overwatch ∧
      (runIteration m w (event "set" key value)).2 = .continues) ∧
    ((runIteration m w (event "delete" key value)).1.handled =
        w.handled ++ [⟨.STOP, path.Base key, value⟩] ∧
      (runIteration m w (event "delete" key value)).1.errorLog = w.errorLog ∧
      (runIteration m w (event "delete" key value)).1.overwatch = w.overwatch ∧
      (runIteration m w (event "delete" key value)).2 = .continues) := by
  rw [runIteration_entry m w "set" key value h, runIteration_entry m w "delete" key value h]
  simp [dispatch, World.log]

/-- C1, at the example of the specification: the key ends in config/http-check-1 and
the value is the JSON text with the url. -/
theorem C1_set_delete_dispatch_witness :
    path.Base "cluster/members/member-1/config/http-check-1" ≠ "config" ∧
    ((runIteration (New ⟨"member-1"⟩) (World.fresh (Chan.fresh 0 0))
        (event "set" "cluster/members/member-1/config/http-check-1"
          "\x7b\"url\":\"http://x\"\x7d")).1.handled =
        [⟨.START, "http-check-1", "\x7b\"url\":\"http://x\"\x7d"⟩]) ∧
    ((runIteration (New ⟨"member-1"⟩) (World.fresh (Chan.fresh 0 0))
        (event "delete" "cluster/members/member-1/config/http-check-1"
          "\x7b\"url\":\"http://x\"\x7d")).1.handled =
        [⟨.STOP, "http-check-1", "\x7b\"url\":\"http://x\"\x7d"⟩]) :=
  ⟨by decide,
    (C1_set_delete_dispatch (New ⟨"member-1"⟩) (World.fresh (Chan.fresh 0 0))
      "cluster/members/member-1/config/http-check-1" "\x7b\"url\":\"http://x\"\x7d"
      (by decide)).1.1,
    (C1_set_delete_dispatch (New ⟨"member-1"⟩) (World.fresh (Chan.fresh 0 0))
      "cluster/members/member-1/config/http-check-1" "\x7b\"url\":\"http://x\"\x7d"
      (by decide)).2.1⟩

/-- C6: for an event whose key has base "config", whatever its action and value, the
iteration of run starts no goroutine for the monitor, adds nothing to the error log,
sends nothing on the overwatch channel, and the loop goes on; it only writes the debug
entry for an ignorable event. -/
theorem C6_config_event_ignored (m : Manager) (w : World) (action key value : String)
    (h : path.Base key = "config") :
    (runIteration m w (event action key value)).1.handled = w.handled ∧
    (runIteration m w (event action key value)).1.errorLog = w.errorLog ∧
    (runIteration m w (event action key value)).1.overwatch = w.overwatch ∧
    (runIteration m w (event action key value)).2 = .continues ∧
    runIteration m w (event action key value) =
      (w.log .Debug "Received an ignorable watcher event" [("action", action), ("key", key)],
        .continues) := by
  rw [runIteration_config m w action key value h]
  simp [World.log]

/-- C6, on a delete of the config directory of member-1. -/
theorem C6_config_event_ignored_witness :
    path.Base "cluster/members/member-1/config" = "config" ∧
    (runIteration (New ⟨"member-1"⟩) (World.fresh (Chan.fresh 0 0))
      (event "delete" "cluster/members/member-1/config" "x")).1.handled = [] ∧
    (runIteration (New ⟨"member-1"⟩) (World.fresh (Chan.fresh 0 0))
      (event "delete" "cluster/members/member-1/config" "x")).1.errorLog = [] ∧
    (runIteration (New ⟨"member-1"⟩) (World.fresh (Chan.fresh 0 0))
      (event "delete" "cluster/members/member-1/config" "x")).1.overwatch = Chan.fresh 0 0 ∧
    (runIteration (New ⟨"member-1"⟩) (World.fresh (Chan.fresh 0 0))
      (event "delete" "cluster/members/member-1/config" "x")).2 = .continues :=
  ⟨by decide,
    (C6_config_event_ignored (New ⟨"member-1"⟩) (World.fresh (Chan.fresh 0 0))
      "delete" "cluster/members/member-1/config" "x" (by decide)).1,
    (C6_config_event_ignored (New ⟨"member-1"⟩) (World.fresh (Chan.fresh 0 0))
      "delete" "cluster/members/member-1/config" "x" (by decide)).2.1,
    (C6_config_event_ignored (New ⟨"member-1"⟩) (World.fresh (Chan.fresh 0 0))
      "delete" "cluster/members/member-1/config" "x" (by decide)).2.2.1,
    (C6_config_event_ignored (New ⟨"member-1"⟩) (World.fresh (Chan.fresh 0 0))
      "delete" "cluster/members/member-1/config" "x" (by decide)).2.2.2.1⟩

/-- C7: for an event that is not ignorable and whose action is neither "set" nor
"delete", the iteration of run starts no goroutine for the monitor, adds exactly one
entry "Received an unrecognized action -> skipping" to the error log, sends nothing on
the overwatch channel, and the loop goes on. -/
theorem C7_unrecognized_action (m : Manager) (w : World) (action key value : String)
    (h : path.Base key ≠ "config") (hset : action ≠ "set") (hdel : action ≠ "delete") :
    (runIteration m w (event action key value)).1.handled = w.handled ∧
    (runIteration m w (event action key value)).1.errorLog =
      w.errorLog ++ [⟨"Received an unrecognized action -> skipping", [("action", action)]⟩] ∧
    (runIteration m w (event action key value)).1.overwatch = w.overwatch ∧
    (runIteration m w (event action key value)).2 = .continues := by
  rw [runIteration_entry m w action key value h]
  simp [dispatch, World.log, World.addWithErrorLog, hset, hdel]

/-- C7, on the action "expire". -/
theorem C7_unrecognized_action_witness :
    (path.Base "cluster/members/member-1/config/http-check-1" ≠ "config" ∧
      "expire" ≠ "set" ∧ "expire" ≠ "delete") ∧
    (runIteration (New ⟨"member-1"⟩) (World.fresh (Chan.fresh 0 0))
      (event "expire" "cluster/members/member-1/config/http-check-1" "")).1.handled = [] ∧
    (runIteration (New ⟨"member-1"⟩) (World.fresh (Chan.fresh 0 0))
      (event "expire" "cluster/members/member-1/config/http-check-1" "")).1.errorLog =
      [⟨"Received an unrecognized action -> skipping", [("action", "expire")]⟩] ∧
    (runIteration (New ⟨"member-1"⟩) (World.fresh (Chan.fresh 0 0))
      (event "expire" "cluster/members/member-1/config/http-check-1" "")).1.overwatch =
      Chan.fresh 0 0 ∧
    (runIteration (New ⟨"member-1"⟩) (World.fresh (Chan.fresh 0 0))
      (event "expire" "cluster/members/member-1/config/http-check-1" "")).2 = .continues :=
  ⟨⟨by decide, by decide, by decide⟩,
    C7_unrecognized_action (New ⟨"member-1"⟩) (World.fresh (Chan.fresh 0 0))
      "expire" "cluster/members/member-1/config/http-check-1" ""
      (by decide) (by decide) (by decide)⟩

/-- C4: when watcher.Next returns a nil response with a nil error, ignorableWatcherEvent
writes its debug entry and answers true, and the iteration of run then panics on
reading resp.Action for the next debug entry: the loop does not go on. -/
theorem C4_nil_event_panics (m : Manager) (w : World) :
    runIteration m w ⟨none, none⟩ =
      (w.log .Debug "Received a nil etcd response - bug?" [], .panics) ∧
    (ignorableWatcherEvent m w none).2 = .ok true ∧
    (∀ rest : List WatchResult,
      (runLoop m w (⟨none, none⟩ :: rest)).2 = .panicked) := by
  refine ⟨rfl, rfl, ?_⟩
  intro rest
  rfl

/-- C2, as the code has it: the iteration of run on a watch error ends the loop without
an error-log entry and without a fault report exactly when the text of the error,
err.Error(), is "context canceled"; context.Canceled has that text and ends the loop;
an error with any other text gets its error-log entry and does not end the loop. -/
theorem C2_clean_shutdown_by_message (m : Manager) (w : World)
    (resp : Option client.Response) (err : GoError) :
    (((runIteration m w ⟨resp, some err⟩).2 = .breaks ∧
        (runIteration m w ⟨resp, some err⟩).1.errorLog = w.errorLog ∧
        (runIteration m w ⟨resp, some err⟩).1.overwatch = w.overwatch) ↔
      err.Error = "context canceled") ∧
    ((runIteration m w ⟨resp, some err⟩).2 = .breaks ↔ err.Error = "context canceled") ∧
    (((runIteration m w ⟨resp, some err⟩).2 ≠ .breaks ∧
        (runIteration m w ⟨resp, some err⟩).1.errorLog =
          w.errorLog ++ [⟨"Unexpected watcher error", [("err", err.Error)]⟩]) ↔
      err.Error ≠ "context canceled") ∧
    runIteration m w ⟨resp, some .Canceled⟩ =
      (w.log .Debug "Received a notice to shutdown" [], .breaks) := by
  refine ⟨?_, ?_, ?_, rfl⟩
  · by_cases h : err.Error = "context canceled"
    · simp [runIteration, h, World.log]
    · cases hs : w.overwatch.send (watcherFault m err) <;>
        simp [runIteration, h, hs, World.addWithErrorLog]
  · by_cases h : err.Error = "context canceled"
    · simp [runIteration, h]
    · cases hs : w.overwatch.send (watcherFault m err) <;>
        simp [runIteration, h, hs, World.addWithErrorLog]
  · by_cases h : err.Error = "context canceled"
    · simp [runIteration, h]
    · cases hs : w.overwatch.send (watcherFault m err) <;>
        simp [runIteration, h, hs, World.addWithErrorLog]

/-- C2 fails as stated: an error value that is not context.Canceled but whose text
reads "context canceled" ends the loop, with no error-log entry and no fault report. -/
theorem C2_counterexample :
    GoError.other "context canceled" ≠ GoError.Canceled ∧
    runIteration (New ⟨"member-1"⟩) (World.fresh (Chan.fresh 1 0))
        (failure (.other "context canceled")) =
      ((World.fresh (Chan.fresh 1 0)).log .Debug "Received a notice to shutdown" [],
        .breaks) ∧
    (runIteration (New ⟨"member-1"⟩) (World.fresh (Chan.fresh 1 0))
        (failure (.other "context canceled"))).1.errorLog = [] ∧
    (runIteration (New ⟨"member-1"⟩) (World.fresh (Chan.fresh 1 0))
        (failure (.other "context canceled"))).1.overwatch.accepted = 0 := by
  decide

/-- C9, as the code has it: Stop on a manager whose Cancel is nil returns nil, writes
the one warning, cancels nothing, and then still calls Monitor.StopAll once; nothing
else changes. -/
theorem C9_stop_before_start (m : Manager) (w : World) (h : m.Cancel = none) :
    (Stop m w).2 = none ∧
    (Stop m w).1.logs =
      w.logs ++ [⟨.Warning, "Looks like .Cancel is nil; is this expected?", []⟩] ∧
    (Stop m w).1.canceled = w.canceled ∧
    (Stop m w).1.stopAlls = w.stopAlls + 1 ∧
    (Stop m w).1.errorLog = w.errorLog ∧
    (Stop m w).1.overwatch = w.overwatch ∧
    (Stop m w).1.handled = w.handled ∧
    (Stop m w).1.watchers = w.watchers := by
  simp [Stop, h, World.log]

/-- C9, on a manager as New returns it. -/
theorem C9_stop_before_start_witness :
    (New ⟨"member-1"⟩).Cancel = none ∧
    (Stop (New ⟨"member-1"⟩) (World.fresh (Chan.fresh 0 0))).2 = none ∧
    (Stop (New ⟨"member-1"⟩) (World.fresh (Chan.fresh 0 0))).1.logs =
      [⟨.Warning, "Looks like .Cancel is nil; is this expected?", []⟩] ∧
    (Stop (New ⟨"member-1"⟩) (World.fresh (Chan.fresh 0 0))).1.canceled = [] ∧
    (Stop (New ⟨"member-1"⟩) (World.fresh (Chan.fresh 0 0))).1.stopAlls = 1 :=
  ⟨rfl,
    (C9_stop_before_start (New ⟨"member-1"⟩) (World.fresh (Chan.fresh 0 0)) rfl).1,
    (C9_stop_before_start (New ⟨"member-1"⟩) (World.fresh (Chan.fresh 0 0)) rfl).2.1,
    (C9_stop_before_start (New ⟨"member-1"⟩) (World.fresh (Chan.fresh 0 0)) rfl).2.2.1,
    (C9_stop_before_start (New ⟨"member-1"⟩) (World.fresh (Chan.fresh 0 0)) rfl).2.2.2.1⟩

/-- C9 fails as stated: Stop on a manager that was never started does not return after
the warning; it goes on to Monitor.StopAll, so the world it leaves differs from the
one with the warning alone. -/
theorem C9_counterexample :
    (New ⟨"member-1"⟩).Cancel = none ∧
    (Stop (New ⟨"member-1"⟩) (World.fresh (Chan.fresh 0 0))).1.stopAlls = 1 ∧
    (Stop (New ⟨"member-1"⟩) (World.fresh (Chan.fresh 0 0))).1 ≠
      (World.fresh (Chan.fresh 0 0)).log .Warning
        "Looks like .Cancel is nil; is this expected?" [] := by
  decide

/-- C3, as the code has it: for a manager with the identifier "manager" that New sets,
on an open overwatch channel. First, for an error whose text is not "context canceled",
when the channel has room (a parked receiver or a free buffer place), the iteration of
run adds exactly one entry to the error log, sends exactly one fault report with kind
ETCD_WATCHER_ERROR and source "manager.run", starts no goroutine for the monitor, and
the loop goes on with the next watch result from the world so changed. Second, for a
stream of such errors and of events, followed by the cancellation error, when the
channel has room for the errors, run returns nil and the channel has taken exactly one
fault report per error. -/
theorem C3_fault_reported_loop_continues (m : Manager) (w : World)
    (hid : m.Identifier = "manager") (hopen : w.overwatch.closed = false) :
    (∀ (resp : Option client.Response) (err : GoError),
      err.Error ≠ "context canceled" → 0 < w.overwatch.room →
      ∃ c, w.overwatch.send ⟨.other ("Unexpected watcher error: " ++ err.Error),
            "manager.run", .ETCD_WATCHER_ERROR⟩ = .sent c ∧
        c.accepted = w.overwatch.accepted + 1 ∧
        runIteration m w ⟨resp, some err⟩ =
          ({ w with
              errorLog := w.errorLog ++ [⟨"Unexpected watcher error", [("err", err.Error)]⟩],
              overwatch := c }, .continues) ∧
        (runIteration m w ⟨resp, some err⟩).1.handled = w.handled ∧
        ∀ rest : List WatchResult,
          runLoop m w (⟨resp, some err⟩ :: rest) =
            runLoop m { w with
              errorLog := w.errorLog ++ [⟨"Unexpected watcher error", [("err", err.Error)]⟩],
              overwatch := c } rest) ∧
    (∀ (stream rest : List WatchResult),
      (∀ r ∈ stream, r.isFault = true ∨ r.isEvent = true) →
      faultCount stream ≤ w.overwatch.room →
      (run m w (stream ++ failure .Canceled :: rest)).2 = .returned none ∧
      (run m w (stream ++ failure .Canceled :: rest)).1.overwatch.accepted =
        w.overwatch.accepted + faultCount stream) := by
  constructor
  · intro resp err hmsg hroom
    obtain ⟨c, hsend, _, hacc, _, _⟩ :=
      Chan.send_of_room w.overwatch (watcherFault m err) hopen hroom
    have hstep := runIteration_fault m w resp err hmsg
    rw [hsend] at hstep
    refine ⟨c, ?_, hacc, hstep, ?_, ?_⟩
    · rw [← watcherFault_of_New m err hid]
      exact hsend
    · rw [hstep]
    · intro rest
      exact runLoop_cons_continues m w _ _ rest hstep
  · intro stream rest hall hroom
    obtain ⟨w1, hrun, _, hacc, _⟩ :=
      runLoop_faults_events m stream
        { w with watchers := w.watchers ++ [("cluster/members/" ++ m.MemberID ++ "/config", true)] }
        (failure .Canceled :: rest) hall hopen hroom
    have hloop : run m w (stream ++ failure .Canceled :: rest) =
        ((w1.log .Debug "Received a notice to shutdown" []).log .Debug "Exiting..." [],
          .returned none) := by
      unfold run
      rw [hrun]
      exact runLoop_canceled m w1 none .Canceled rest rfl
    rw [hloop]
    exact ⟨rfl, hacc⟩

/-- C3, on a manager from New and a channel with two buffer places: one fault, and a
stream of a fault, a set and another fault before the cancellation. -/
theorem C3_fault_reported_loop_continues_witness :
    ((New ⟨"member-1"⟩).Identifier = "manager" ∧
      (World.fresh (Chan.fresh 2 0)).overwatch.closed = false) ∧
    (∃ c, (World.fresh (Chan.fresh 2 0)).overwatch.send
          ⟨.other ("Unexpected watcher error: " ++ (GoError.other "boom").Error),
            "manager.run", .ETCD_WATCHER_ERROR⟩ = .sent c ∧
        c.accepted = (World.fresh (Chan.fresh 2 0)).overwatch.accepted + 1 ∧
        runIteration (New ⟨"member-1"⟩) (World.fresh (Chan.fresh 2 0))
            ⟨none, some (.other "boom")⟩ =
          ({ World.fresh (Chan.fresh 2 0) with
              errorLog := (World.fresh (Chan.fresh 2 0)).errorLog ++
                [⟨"Unexpected watcher error", [("err", (GoError.other "boom").Error)]⟩],
              overwatch := c }, .continues) ∧
        (runIteration (New ⟨"member-1"⟩) (World.fresh (Chan.fresh 2 0))
            ⟨none, some (.other "boom")⟩).1.handled =
          (World.fresh (Chan.fresh 2 0)).handled ∧
        ∀ rest : List WatchResult,
          runLoop (New ⟨"member-1"⟩) (World.fresh (Chan.fresh 2 0))
              (⟨none, some (.other "boom")⟩ :: rest) =
            runLoop (New ⟨"member-1"⟩) { World.fresh (Chan.fresh 2 0) with
              errorLog := (World.fresh (Chan.fresh 2 0)).errorLog ++
                [⟨"Unexpected watcher error", [("err", (GoError.other "boom").Error)]⟩],
              overwatch := c } rest) ∧
    ((run (New ⟨"member-1"⟩) (World.fresh (Chan.fresh 2 0))
        ([failure (.other "boom"),
          event "set" "cluster/members/member-1/config/disk-1" "x",
          failure (.other "bang")] ++ failure .Canceled :: [])).2 = .returned none ∧
      (run (New ⟨"member-1"⟩) (World.fresh (Chan.fresh 2 0))
        ([failure (.other "boom"),
          event "set" "cluster/members/member-1/config/disk-1" "x",
          failure (.other "bang")] ++ failure .Canceled :: [])).1.overwatch.accepted =
        (World.fresh (Chan.fresh 2 0)).overwatch.accepted +
          faultCount [failure (.other "boom"),
            event "set" "cluster/members/member-1/config/disk-1" "x",
            failure (.other "bang")]) :=
  ⟨⟨rfl, rfl⟩,
    (C3_fault_reported_loop_continues (New ⟨"member-1"⟩) (World.fresh (Chan.fresh 2 0))
      rfl rfl).1 none (.other "boom") (by decide) (by decide),
    (C3_fault_reported_loop_continues (New ⟨"member-1"⟩) (World.fresh (Chan.fresh 2 0))
      rfl rfl).2 _ [] (by decide) (by decide)⟩

/-- C3 fails as stated, in two ways. An error that is not context.Canceled but reads
"context canceled" gets no error-log entry and no fault report and ends the loop: the
set that follows is not handled. An error with another text, met on an unbuffered
overwatch channel with no receiver, gets its error-log entry, but the send does not
complete: the loop is parked and the set that follows is not handled. -/
theorem C3_counterexample :
    (GoError.other "context canceled" ≠ GoError.Canceled ∧
      runLoop (New ⟨"member-1"⟩) (World.fresh (Chan.fresh 4 0))
          [failure (.other "context canceled"),
            event "set" "cluster/members/member-1/config/disk-1" "x"] =
        (((World.fresh (Chan.fresh 4 0)).log .Debug "Received a notice to shutdown" []).log
            .Debug "Exiting..." [], .returned none)) ∧
    ((runLoop (New ⟨"member-1"⟩) (World.fresh (Chan.fresh 0 0))
          [failure (.other "boom"),
            event "set" "cluster/members/member-1/config/disk-1" "x"]).2 = .blockedOnSend ∧
      (runLoop (New ⟨"member-1"⟩) (World.fresh (Chan.fresh 0 0))
          [failure (.other "boom"),
            event "set" "cluster/members/member-1/config/disk-1" "x"]).1.overwatch.accepted = 0 ∧
      (runLoop (New ⟨"member-1"⟩) (World.fresh (Chan.fresh 0 0))
          [failure (.other "boom"),
            event "set" "cluster/members/member-1/config/disk-1" "x"]).1.handled = []) := by
  decide

/-- C8: for every stream of events (each with its key and value) followed by the
cancellation error, the goroutines that run starts for the monitor are exactly, in
stream order, START(path.Base key, value) for each "set" and STOP(path.Base key, value)
for each "delete" among the events that are not ignorable, and nothing else; the
overwatch channel is left as it was, and run returns nil. The last part is the scenario
of the specification: set disk-1, set on the config directory, delete disk-1,
cancellation. -/
theorem C8_event_stream_directives (m : Manager) (w : World)
    (evs : List (String × String × String)) (rest : List WatchResult) :
    (run m w (eventStream evs ++ failure .Canceled :: rest)).1.handled =
      w.handled ++ expectedDirectives evs ∧
    (run m w (eventStream evs ++ failure .Canceled :: rest)).1.overwatch = w.overwatch ∧
    (run m w (eventStream evs ++ failure .Canceled :: rest)).2 = .returned none ∧
    ((run (New ⟨"member-1"⟩) (World.fresh (Chan.fresh 0 0))
        [event "set" "cluster/members/member-1/config/disk-1" "\x7b\"path\":\"/\"\x7d",
          event "set" "cluster/members/member-1/config" "",
          event "delete" "cluster/members/member-1/config/disk-1" "",
          failure .Canceled]).1.handled =
        [⟨.START, "disk-1", "\x7b\"path\":\"/\"\x7d"⟩, ⟨.STOP, "disk-1", ""⟩] ∧
      (run (New ⟨"member-1"⟩) (World.fresh (Chan.fresh 0 0))
        [event "set" "cluster/members/member-1/config/disk-1" "\x7b\"path\":\"/\"\x7d",
          event "set" "cluster/members/member-1/config" "",
          event "delete" "cluster/members/member-1/config/disk-1" "",
          failure .Canceled]).1.overwatch.accepted = 0 ∧
      (run (New ⟨"member-1"⟩) (World.fresh (Chan.fresh 0 0))
        [event "set" "cluster/members/member-1/config/disk-1" "\x7b\"path\":\"/\"\x7d",
          event "set" "cluster/members/member-1/config" "",
          event "delete" "cluster/members/member-1/config/disk-1" "",
          failure .Canceled]).2 = .returned none) := by
  obtain ⟨w1, hrun, hh, ho⟩ :=
    runLoop_events m evs
      { w with watchers := w.watchers ++ [("cluster/members/" ++ m.MemberID ++ "/config", true)] }
      (failure .Canceled :: rest)
  have hloop : run m w (eventStream evs ++ failure .Canceled :: rest) =
      ((w1.log .Debug "Received a notice to shutdown" []).log .Debug "Exiting..." [],
        .returned none) := by
    unfold run
    rw [hrun]
    exact runLoop_canceled m w1 none .Canceled rest rfl
  rw [hloop]
  exact ⟨hh, ho, rfl, by decide⟩

/-- C10, as the code has it: the send of the fault report is a plain channel send. For
an error whose text is not "context canceled", the iteration of run completes the send
and goes on exactly when the overwatch channel is open and has room (a parked receiver
or a free buffer place); on an open channel without room (a full buffer, or no buffer
and no receiver) the iteration stays parked in the send after its error-log entry, and
the loop takes no further watch result; on a closed channel it panics. -/
theorem C10_send_completes_only_with_room (m : Manager) (w : World)
    (resp : Option client.Response) (err : GoError) (hmsg : err.Error ≠ "context canceled") :
    ((runIteration m w ⟨resp, some err⟩).2 = .continues ↔
      (w.overwatch.closed = false ∧ 0 < w.overwatch.room)) ∧
    ((runIteration m w ⟨resp, some err⟩).2 = .blocksOnSend ↔
      (w.overwatch.closed = false ∧ w.overwatch.room = 0)) ∧
    ((runIteration m w ⟨resp, some err⟩).2 = .panics ↔ w.overwatch.closed = true) ∧
    (∀ rest : List WatchResult, w.overwatch.closed = false → w.overwatch.room = 0 →
      runLoop m w (⟨resp, some err⟩ :: rest) =
        ({ w with
            errorLog := w.errorLog ++ [⟨"Unexpected watcher error", [("err", err.Error)]⟩] },
          .blockedOnSend)) := by
  have hstep := runIteration_fault m w resp err hmsg
  cases hc : w.overwatch.closed with
  | true =>
    have hsend : w.overwatch.send (watcherFault m err) = .panics := by
      simp [Chan.send, hc]
    rw [hsend] at hstep
    simp [hstep]
  | false =>
    by_cases hroom : 0 < w.overwatch.room
    · obtain ⟨c, hsend, _⟩ := Chan.send_of_room w.overwatch (watcherFault m err) hc hroom
      rw [hsend] at hstep
      have hne : w.overwatch.room ≠ 0 := by omega
      simp [hstep, hroom, hne]
    · have hzero : w.overwatch.room = 0 := by omega
      have hsend := Chan.send_of_full w.overwatch (watcherFault m err) hc hzero
      rw [hsend] at hstep
      simp [hstep, hzero, runLoop]

/-- C10, on an unbuffered channel with no receiver. -/
theorem C10_send_completes_only_with_room_witness :
    (GoError.other "etcd cluster is unavailable").Error ≠ "context canceled" ∧
    (runIteration (New ⟨"member-1"⟩) (World.fresh (Chan.fresh 0 0))
        ⟨none, some (.other "etcd cluster is unavailable")⟩).2 = .blocksOnSend ∧
    runLoop (New ⟨"member-1"⟩) (World.fresh (Chan.fresh 0 0))
        (⟨none, some (.other "etcd cluster is unavailable")⟩ ::
          [event "set" "cluster/members/member-1/config/disk-1" "x"]) =
      ({ World.fresh (Chan.fresh 0 0) with
          errorLog := (World.fresh (Chan.fresh 0 0)).errorLog ++
            [⟨"Unexpected watcher error",
              [("err", (GoError.other "etcd cluster is unavailable").Error)]⟩] },
        .blockedOnSend) :=
  ⟨by decide,
    ((C10_send_completes_only_with_room (New ⟨"member-1"⟩) (World.fresh (Chan.fresh 0 0))
      none (.other "etcd cluster is unavailable") (by decide)).2.1).2 ⟨rfl, rfl⟩,
    (C10_send_completes_only_with_room (New ⟨"member-1"⟩) (World.fresh (Chan.fresh 0 0))
      none (.other "etcd cluster is unavailable") (by decide)).2.2.2 _ rfl rfl⟩

/-- C10 fails as stated: on an unbuffered overwatch channel with no receiver, and on a
buffered one whose single place is taken, the iteration that handles a watcher error
does not complete the send; the loop is parked there and the set that follows in the
stream is not handled. -/
theorem C10_counterexample :
    (runIteration (New ⟨"member-1"⟩) (World.fresh (Chan.fresh 0 0))
        (failure (.other "etcd cluster is unavailable"))).2 = .blocksOnSend ∧
    (runIteration (New ⟨"member-1"⟩)
        (World.fresh { cap := 1,
                       buf := [⟨.other "earlier", "manager.run", .ETCD_WATCHER_ERROR⟩],
                       recvq := 0, handed := [], closed := false })
        (failure (.other "etcd cluster is unavailable"))).2 = .blocksOnSend ∧
    runLoop (New ⟨"member-1"⟩) (World.fresh (Chan.fresh 0 0))
        [failure (.other "etcd cluster is unavailable"),
          event "set" "cluster/members/member-1/config/disk-1" "x"] =
      ((World.fresh (Chan.fresh 0 0)).addWithErrorLog "Unexpected watcher error"
          [("err", "etcd cluster is unavailable")], .blockedOnSend) := by
  decide
